import Mathlib

/-!
Verification of the loom.md rendering backend.

The markdown line renderer (`render_markdown_line`, `RenderRequest`,
`LineRenderResult`, module `markdown`) is referenced from
`src/src-tauri/src/lib.rs` but its source module is not part of the
provided sources; it is modelled here from the specification (§3, §4.1,
§4.2 of spec.md).  The batching, directory-listing and settings-store
code is embedded directly from `src/src-tauri/src/lib.rs` and
`src/src-tauri/src/global_config.rs`, with filesystem effects made
explicit as a state value.
-/

namespace Loom

/-! ### Context model (modelled from the spec, §3 / §4.2)

The context summarizes open block state: fence flag + optional language
tag (the fence character and opening run length are also needed, since a
closing marker must use identical characters and equal or greater
length, §4.1 step 1), an ordered stack of active list levels (marker
type, indent width), blockquote nesting depth, and the
table-header-seen flag. -/

inductive ListMarkerKind where
  | bullet
  | numbered
deriving DecidableEq, Repr

structure ListLevel where
  marker : ListMarkerKind
  indent : Nat
deriving DecidableEq, Repr

structure FenceState where
  fenceChar : Char
  fenceLen : Nat
  lang : Option String
deriving DecidableEq, Repr

structure Context where
  fence : Option FenceState
  listStack : List ListLevel
  quoteDepth : Nat
  tableHeaderSeen : Bool
deriving DecidableEq, Repr

/-- The initial, all-closed context (spec §3: "Default/initial context =
all-closed (no open blocks)"). -/
def Context.initial : Context :=
  { fence := none, listStack := [], quoteDepth := 0, tableHeaderSeen := false }

inductive LineTag where
  | heading
  | paragraph
  | fenceBoundary
  | listItem
  | quote
  | tableRow
  | blank
  | codeContent
deriving DecidableEq, Repr

/-- Modelled from the spec: a render request carries a line index (used
only for result matching, not for semantics), the raw line text, and the
incoming context (spec §3). -/
structure RenderRequest where
  index : Nat
  line : String
  context : Context
deriving DecidableEq, Repr

/-- Modelled from the spec: a result carries the rendered output, the
outgoing context and a line-classification tag (spec §3). -/
structure LineRenderResult where
  html : String
  context : Context
  tag : LineTag
deriving DecidableEq, Repr

/-! ### Line renderer (modelled from the spec, §4.1) -/

def escapeChar (c : Char) : String :=
  if c = '<' then "&lt;"
  else if c = '>' then "&gt;"
  else if c = '&' then "&amp;"
  else String.singleton c

def escapeHtml (s : String) : String :=
  String.join (s.toList.map escapeChar)

/-- Length of the longest run of `c` at the head of the list. -/
def countLeading (c : Char) : List Char → Nat
  | [] => 0
  | x :: xs => if x = c then countLeading c xs + 1 else 0

def isWs (c : Char) : Bool :=
  c == ' ' || c == '\t' || c == '\r' || c == '\n'

/-- Strip leading and trailing whitespace (structural `trim`). -/
def trimList (l : List Char) : List Char :=
  ((l.dropWhile isWs).reverse.dropWhile isWs).reverse

def trimStr (s : String) : String :=
  String.mk (trimList s.toList)

/-- Split a character list at every occurrence of `c`. -/
def splitOnChar (c : Char) : List Char → List (List Char)
  | [] => [[]]
  | x :: xs =>
    if x = c then [] :: splitOnChar c xs
    else
      match splitOnChar c xs with
      | [] => [[x]]
      | h :: t => (x :: h) :: t

/-- Fence-opening marker: a run of at least three identical fence
characters, then an optional language tag (spec §4.1 step 1). -/
def parseFenceOpen (line : String) : Option FenceState :=
  match line.toList with
  | [] => none
  | c :: _ =>
    if c = '`' ∨ c = '~' then
      let n := countLeading c line.toList
      if 3 ≤ n then
        let rest := trimStr (String.mk (line.toList.drop n))
        some { fenceChar := c, fenceLen := n,
               lang := if rest = "" then none else some rest }
      else none
    else none

/-- Fence-closing marker: a run of the same fence character of equal or
greater length than the opening run (spec §4.1 step 1). -/
def isFenceClose (fs : FenceState) (line : String) : Bool :=
  let l := line.toList
  !l.isEmpty && l.all (fun c => c == fs.fenceChar) && decide (fs.fenceLen ≤ l.length)

/-- Inline-span rendering (spec §4.1 step 4), fuel-indexed: emphasis and
inline code spans pair the leftmost opener with the nearest closer;
unmatched delimiters render literally. Fuel equal to the input length
always suffices since every step consumes at least one character. -/
def renderInlineFuel : Nat → List Char → String
  | 0, l => escapeHtml (String.mk l)
  | _ + 1, [] => ""
  | n + 1, '*' :: rest =>
    if '*' ∈ rest then
      let i := rest.indexOf '*'
      "<em>" ++ escapeHtml (String.mk (rest.take i)) ++ "</em>" ++
        renderInlineFuel n (rest.drop (i + 1))
    else "*" ++ renderInlineFuel n rest
  | n + 1, '`' :: rest =>
    if '`' ∈ rest then
      let i := rest.indexOf '`'
      "<code>" ++ escapeHtml (String.mk (rest.take i)) ++ "</code>" ++
        renderInlineFuel n (rest.drop (i + 1))
    else "`" ++ renderInlineFuel n rest
  | n + 1, c :: rest => escapeChar c ++ renderInlineFuel n rest

def renderInline (s : String) : String :=
  renderInlineFuel s.toList.length s.toList

def isBlankLine (line : String) : Bool :=
  line.toList.all isWs

/-- Heading: a leading run of at least one `#` followed by a space
(spec §4.1 step 3). -/
def parseHeading (line : String) : Option (Nat × String) :=
  let l := line.toList
  let n := countLeading '#' l
  if 1 ≤ n then
    match l.drop n with
    | ' ' :: rest => some (n, String.mk rest)
    | _ => none
  else none

/-- Blockquote: leading `>` markers, nested by repetition (spec §4.1
step 3). Returns the nesting depth and remaining content. -/
def parseQuote (line : String) : Option (Nat × String) :=
  let l := line.toList
  let d := countLeading '>' l
  if 1 ≤ d then
    let rest := l.drop d
    some (d, String.mk (match rest with | ' ' :: r => r | r => r))
  else none

def takeDigits : List Char → Nat
  | [] => 0
  | x :: xs => if x.isDigit then takeDigits xs + 1 else 0

/-- List item: leading indent, then a bullet marker (`-`, `*`, `+`) or
a numbered marker (digit run + `.`), each followed by a space
(spec §4.1 step 3). -/
def parseListMarker (line : String) : Option (ListMarkerKind × Nat × String) :=
  let l := line.toList
  let indent := countLeading ' ' l
  let rest := l.drop indent
  match rest with
  | c :: ' ' :: content =>
    if c = '-' ∨ c = '*' ∨ c = '+' then some (.bullet, indent, String.mk content)
    else none
  | _ =>
    let ds := takeDigits rest
    if 1 ≤ ds then
      match rest.drop ds with
      | '.' :: ' ' :: content => some (.numbered, indent, String.mk content)
      | _ => none
    else none

/-- Update the list stack by comparing the new item's indent width with
the stack top: deeper indent pushes, equal indent replaces the top,
shallower indent pops until it fits (spec §4.1 step 3). -/
def updateListStack : List ListLevel → ListMarkerKind → Nat → List ListLevel
  | [], m, i => [{ marker := m, indent := i }]
  | top :: rest, m, i =>
    if top.indent < i then { marker := m, indent := i } :: top :: rest
    else if top.indent = i then { marker := m, indent := i } :: rest
    else updateListStack rest m i

def isTableRow (line : String) : Bool :=
  match trimList line.toList with
  | '|' :: _ => true
  | _ => false

/-- A table separator row consists only of dashes, colons, pipes and
spaces, and contains at least one dash (spec §4.1 step 3). -/
def isTableSeparator (line : String) : Bool :=
  let l := trimList line.toList
  l.all (fun c => c == '-' || c == ':' || c == '|' || c == ' ') &&
    l.any (fun c => c == '-')

def renderTableRow (line : String) : String :=
  let cells := (splitOnChar '|' (trimList line.toList)).filter
    (fun c => !(trimList c).isEmpty)
  "<tr>" ++
    String.join (cells.map
      (fun c => "<td>" ++ renderInline (String.mk (trimList c)) ++ "</td>")) ++
    "</tr>"

/-- Modelled from the spec: the per-line renderer of the `markdown`
module, a pure function of the line text and the incoming context
(spec §4.1), applying in precedence order: fence boundary detection,
inside-fence verbatim rendering, block-level classification, and
inline-span parsing on text content. -/
def renderLine (line : String) (ctx : Context) : LineRenderResult :=
  match ctx.fence with
  | some fs =>
    if isFenceClose fs line then
      { html := "</code></pre>", context := { ctx with fence := none },
        tag := .fenceBoundary }
    else
      { html := escapeHtml line, context := ctx, tag := .codeContent }
  | none =>
    match parseFenceOpen line with
    | some fs =>
      { html := "<pre><code" ++
          (match fs.lang with
           | some lg => " class=\"language-" ++ lg ++ "\""
           | none => "") ++ ">",
        context := { ctx with fence := some fs }, tag := .fenceBoundary }
    | none =>
      if isBlankLine line then
        { html := "",
          context := { ctx with listStack := [], quoteDepth := 0, tableHeaderSeen := false },
          tag := .blank }
      else
        match parseHeading line with
        | some (n, content) =>
          { html := "<h" ++ toString n ++ ">" ++ renderInline content ++
              "</h" ++ toString n ++ ">",
            context := { ctx with listStack := [], quoteDepth := 0, tableHeaderSeen := false },
            tag := .heading }
        | none =>
          match parseQuote line with
          | some (d, content) =>
            { html := "<blockquote>" ++ renderInline content ++ "</blockquote>",
              context := { ctx with quoteDepth := d, listStack := [], tableHeaderSeen := false },
              tag := .quote }
          | none =>
            match parseListMarker line with
            | some (m, indent, content) =>
              { html := "<li>" ++ renderInline content ++ "</li>",
                context := { ctx with listStack := updateListStack ctx.listStack m indent, quoteDepth := 0, tableHeaderSeen := false },
                tag := .listItem }
            | none =>
              if isTableRow line then
                { html := renderTableRow line,
                  context := { ctx with tableHeaderSeen := ctx.tableHeaderSeen || isTableSeparator line, listStack := [], quoteDepth := 0 },
                  tag := .tableRow }
              else
                { html := "<p>" ++ renderInline line ++ "</p>",
                  context := { ctx with listStack := [], quoteDepth := 0, tableHeaderSeen := false },
                  tag := .paragraph }

/-- Modelled from the spec: `markdown::render_markdown_line`. The
outgoing result depends only on the line text and the incoming context,
never on the index (spec §3). -/
def render_markdown_line (req : RenderRequest) : LineRenderResult :=
  renderLine req.line req.context

/-! ### Commands from `src/src-tauri/src/lib.rs` -/

/-- `render_markdown` (lib.rs lines 17-20): forwards to
`render_markdown_line`. -/
def render_markdown (request : RenderRequest) : LineRenderResult :=
  render_markdown_line request

/-- Order-preserving fan-out/reassembly of rayon's
`into_par_iter().map(f).collect()` (lib.rs line 29): result `i` is `f`
applied to request `i`, reassembled by index. -/
def parCollect (f : RenderRequest → LineRenderResult)
    (reqs : List RenderRequest) : List LineRenderResult :=
  List.ofFn (fun i : Fin reqs.length => f (reqs.get i))

/-- `render_markdown_batch` (lib.rs lines 23-34): parallel fan-out for
batches of more than 50 requests, sequential mapping otherwise. -/
def render_markdown_batch (requests : List RenderRequest) : List LineRenderResult :=
  if requests.length > 50 then
    parCollect render_markdown_line requests
  else
    requests.map render_markdown_line

inductive ExecPath where
  | sequential
  | parallel
deriving DecidableEq, Repr

/-- The execution path chosen by `render_markdown_batch` (the branch
condition at lib.rs line 28). -/
def batchExecPath (requests : List RenderRequest) : ExecPath :=
  if requests.length > 50 then .parallel else .sequential

/-! ### File tree (lib.rs lines 7-14, 36-103)

Filesystem access (`fs::read_dir`, `path.is_dir()`, `fs::read_to_string`)
is made explicit as a `FileSystem` value; each field is the outcome of
the corresponding system call. -/

/-- `FileEntry` (lib.rs lines 8-14); recursive through `children`. -/
inductive FileEntry where
  | mk (name : String) (path : String) (is_dir : Bool)
       (children : Option (List FileEntry))

def FileEntry.name : FileEntry → String
  | .mk n _ _ _ => n

def FileEntry.path : FileEntry → String
  | .mk _ p _ _ => p

def FileEntry.is_dir : FileEntry → Bool
  | .mk _ _ d _ => d

def FileEntry.children : FileEntry → Option (List FileEntry)
  | .mk _ _ _ c => c

/-- One entry produced by `fs::read_dir`: file name and full path. -/
structure RawDirEntry where
  name : String
  path : String

/-- The filesystem as seen by lib.rs: existence and directory tests,
directory listings (`fs::read_dir`, where both the listing itself and
each entry may fail), and file reads (`fs::read_to_string`). -/
structure FileSystem where
  pathExists : String → Bool
  pathIsDir : String → Bool
  listDir : String → Except String (List (Except String RawDirEntry))
  readToString : String → Except String String

/-- Lexicographic comparison of character lists; UTF-8 byte order in
Rust agrees with code-point order, which this mirrors. -/
def charListCmp : List Char → List Char → Ordering
  | [], [] => .eq
  | [], _ :: _ => .lt
  | _ :: _, [] => .gt
  | a :: as, b :: bs =>
    if a < b then .lt else if b < a then .gt else charListCmp as bs

/-- ASCII lowercasing of a name, as used by the sort comparator
(`to_lowercase` restricted to the ASCII range). -/
def lowerName (s : String) : List Char :=
  s.toList.map Char.toLower

/-- The comparator of lib.rs lines 87-93: directories sort before
files, and within each group names compare case-insensitively. -/
def entryCmp (a b : FileEntry) : Ordering :=
  match a.is_dir, b.is_dir with
  | true, false => .lt
  | false, true => .gt
  | _, _ => charListCmp (lowerName a.name) (lowerName b.name)

/-- Non-strict order induced by the comparator (`cmp(a, b) != Greater`),
the order realised by Rust's stable `sort_by`. -/
def entryLe (a b : FileEntry) : Bool :=
  entryCmp a b != Ordering.gt

/-- Hidden entries are those whose name starts with a dot
(lib.rs line 64). -/
def isHiddenName (s : String) : Bool :=
  match s.toList with
  | '.' :: _ => true
  | _ => false

def rawToEntry (fs : FileSystem) (r : RawDirEntry) : FileEntry :=
  let is_dir := fs.pathIsDir r.path
  .mk r.name r.path is_dir (if is_dir then some [] else none)

/-- The entry loop of `read_dir_recursive` (lib.rs lines 58-84): a
failing entry aborts with a message, hidden names are skipped, the rest
become `FileEntry` values with `children` populated only for
directories, in listing order. -/
def processEntries (fs : FileSystem) :
    List (Except String RawDirEntry) → Except String (List FileEntry)
  | [] => .ok []
  | .error e :: _ => .error ("Failed to read entry: " ++ e)
  | .ok r :: rest =>
    if isHiddenName r.name then processEntries fs rest
    else
      match processEntries fs rest with
      | .error e => .error e
      | .ok tail => .ok (rawToEntry fs r :: tail)

/-- `read_dir_recursive` (lib.rs lines 52-96). Rust's `sort_by` is a
stable sort; a stable sort by a total preorder comparator has a unique
result, so it is embedded as the stable `List.insertionSort` with the
same comparator. -/
def read_dir_recursive (fs : FileSystem) (dir_path : String) :
    Except String (List FileEntry) :=
  match fs.listDir dir_path with
  | .error e => .error ("Failed to read directory: " ++ e)
  | .ok raw =>
    match processEntries fs raw with
    | .error e => .error e
    | .ok entries =>
      .ok (List.insertionSort (fun a b => entryLe a b = true) entries)

/-- `read_directory` (lib.rs lines 38-50). -/
def read_directory (fs : FileSystem) (path : String) :
    Except String (List FileEntry) :=
  if !fs.pathExists path then .error "Directory does not exist"
  else if !fs.pathIsDir path then .error "Path is not a directory"
  else read_dir_recursive fs path

/-- `read_file_from_path` (lib.rs lines 100-103): a single read attempt,
its failure mapped to a descriptive message. -/
def read_file_from_path (fs : FileSystem) (path : String) : Except String String :=
  (fs.readToString path).mapError (fun e => "Failed to read file: " ++ e)

/-- A directory holding `.git` (hidden directory), `README.md` (file)
and `src` (subdirectory), for the concrete listing example. -/
def exampleFS : FileSystem where
  pathExists := fun p => p == "/repo"
  pathIsDir := fun p => p == "/repo" || p == "/repo/.git" || p == "/repo/src"
  listDir := fun p =>
    if p == "/repo" then
      .ok [.ok ⟨".git", "/repo/.git"⟩, .ok ⟨"README.md", "/repo/README.md"⟩,
           .ok ⟨"src", "/repo/src"⟩]
    else .error "No such directory"
  readToString := fun _ => .error "Is a directory"

/-! ### Settings store (`src/src-tauri/src/global_config.rs`)

The app-data directory resolution, directory creation, file existence
test, file read/write and the outcome of JSON (de)serialization are made
explicit as a `CfgFS` state.  JSON text parsing itself belongs to the
external `serde_json` collaborator, so file contents are carried at the
level of parsed JSON values; mapping a JSON value to a `GlobalConfig`
follows the derived serde instance on the struct (global_config.rs
lines 7-11), including `#[serde(default)]` on `last_opened_folder`. -/

/-- `GlobalConfig` (global_config.rs lines 7-11). -/
structure GlobalConfig where
  last_opened_folder : Option String
deriving DecidableEq, Repr

/-- `Default for GlobalConfig` (global_config.rs lines 13-19). -/
def GlobalConfig.default : GlobalConfig :=
  { last_opened_folder := none }

/-- JSON values, as far as the config needs them. -/
inductive Json where
  | null
  | str (s : String)
  | num (n : Int)
  | obj (fields : List (String × Json))

/-- State of the config file on disk: unreadable, readable but not
valid JSON, or a parsed JSON value. -/
inductive ConfigFileState where
  | readErr (e : String)
  | badJson (e : String)
  | json (j : Json)

/-- The filesystem and serializer as seen by global_config.rs. -/
structure CfgFS where
  appDataDirResult : Except String String
  dirExists : Bool
  createDirResult : Except String Unit
  configFile : Option ConfigFileState
  serializeResult : Option String
  writeResult : Except String Unit

def lookupField (fields : List (String × Json)) (k : String) : Option Json :=
  match fields with
  | [] => none
  | (key, v) :: rest => if key == k then some v else lookupField rest k

/-- Deserialization of `GlobalConfig` per the derived serde instance: a
JSON object is expected; a missing `last_opened_folder` field falls back
to the field default (`#[serde(default)]`), `null` and a string map to
`None` and `Some`, anything else is a type error. -/
def deserializeGlobalConfig (j : Json) : Except String GlobalConfig :=
  match j with
  | .obj fields =>
    match lookupField fields "last_opened_folder" with
    | none => .ok { last_opened_folder := none }
    | some .null => .ok { last_opened_folder := none }
    | some (.str s) => .ok { last_opened_folder := some s }
    | some _ => .error "invalid type for field last_opened_folder"
  | _ => .error "invalid type: expected an object"

/-- Serialization of `GlobalConfig` per the derived serde instance. -/
def globalConfigToJson (c : GlobalConfig) : Json :=
  .obj [("last_opened_folder",
    match c.last_opened_folder with
    | none => .null
    | some s => .str s)]

/-- `get_app_data_dir` (global_config.rs lines 22-27). -/
def get_app_data_dir (fs : CfgFS) : Except String String :=
  fs.appDataDirResult.mapError
    (fun e => "Failed to get app data directory: " ++ e)

/-- `get_global_config_path` (global_config.rs lines 30-40): resolves
the app data directory, creates it if missing, and appends the config
file name.  Returns the result together with the updated filesystem
state. -/
def get_global_config_path (fs : CfgFS) : Except String String × CfgFS :=
  match get_app_data_dir fs with
  | .error e => (.error e, fs)
  | .ok d =>
    if fs.dirExists then (.ok (d ++ "/global_config.json"), fs)
    else
      match fs.createDirResult with
      | .error e => (.error ("Failed to create app data directory: " ++ e), fs)
      | .ok _ => (.ok (d ++ "/global_config.json"), { fs with dirExists := true })

/-- `load_global_config` (global_config.rs lines 43-55). -/
def load_global_config (fs : CfgFS) : Except String GlobalConfig × CfgFS :=
  match get_global_config_path fs with
  | (.error e, fs1) => (.error e, fs1)
  | (.ok _, fs1) =>
    match fs1.configFile with
    | none => (.ok GlobalConfig.default, fs1)
    | some (.readErr e) =>
      (.error ("Failed to read global config file: " ++ e), fs1)
    | some (.badJson e) =>
      (.error ("Failed to parse global config file: " ++ e), fs1)
    | some (.json j) =>
      ((deserializeGlobalConfig j).mapError
        (fun e => "Failed to parse global config file: " ++ e), fs1)

/-- `save_global_config` (global_config.rs lines 58-66). -/
def save_global_config (fs : CfgFS) (config : GlobalConfig) :
    Except String Unit × CfgFS :=
  match get_global_config_path fs with
  | (.error e, fs1) => (.error e, fs1)
  | (.ok _, fs1) =>
    match fs1.serializeResult with
    | some e => (.error ("Failed to serialize global config: " ++ e), fs1)
    | none =>
      match fs1.writeResult with
      | .error e => (.error ("Failed to write global config file: " ++ e), fs1)
      | .ok _ =>
        (.ok (), { fs1 with configFile := some (.json (globalConfigToJson config)) })

/-- A healthy settings environment with no config file yet: the app
data directory resolves, does not exist yet but can be created, and
writes succeed. -/
def cfgA : CfgFS where
  appDataDirResult := .ok "/data"
  dirExists := false
  createDirResult := .ok ()
  configFile := none
  serializeResult := none
  writeResult := .ok ()

/-- A settings environment whose config file is a JSON object without
the `last_opened_folder` field. -/
def cfgB : CfgFS where
  appDataDirResult := .ok "/data"
  dirExists := true
  createDirResult := .ok ()
  configFile := some (.json (.obj [("theme", Json.str "dark")]))
  serializeResult := none
  writeResult := .ok ()

/-- A filesystem where everything fails: `/dir` exists but is not a
directory, and reads are denied. -/
def badFS : FileSystem where
  pathExists := fun p => p == "/dir"
  pathIsDir := fun _ => false
  listDir := fun _ => .error "permission denied"
  readToString := fun _ => .error "permission denied"

/-- A settings environment where the config file is unreadable, the
serializer fails and the disk is full. -/
def cfgBad : CfgFS where
  appDataDirResult := .ok "/data"
  dirExists := true
  createDirResult := .ok ()
  configFile := some (.readErr "permission denied")
  serializeResult := some "key must be a string"
  writeResult := .error "disk full"

/-! ### Batching theorems (C1, C5) -/

theorem parCollect_eq_map (f : RenderRequest → LineRenderResult)
    (l : List RenderRequest) : parCollect f l = l.map f := by
  unfold parCollect
  conv_rhs => rw [← List.ofFn_get l, List.map_ofFn]
  rfl

/-- C1: for every list of render requests, `render_markdown_batch`
returns exactly the list obtained by applying `render_markdown` to each
request in input order — same length, and the `i`-th result renders the
`i`-th request — on both the sequential and the parallel path. -/
theorem render_markdown_batch_eq_map (requests : List RenderRequest) :
    render_markdown_batch requests = requests.map render_markdown ∧
    (render_markdown_batch requests).length = requests.length ∧
    ∀ i : Nat,
      (render_markdown_batch requests)[i]? = (requests[i]?).map render_markdown := by
  have h : render_markdown_batch requests = requests.map render_markdown := by
    unfold render_markdown_batch
    split
    · exact parCollect_eq_map _ _
    · rfl
  refine ⟨h, ?_, ?_⟩
  · rw [h, List.length_map]
  · intro i
    rw [h, List.getElem?_map]

/-- C2: line rendering is deterministic and free of hidden state: two
requests with the same line text and the same incoming context render to
identical results (output, outgoing context and tag), whatever their
indices. -/
theorem render_markdown_deterministic (r1 r2 : RenderRequest)
    (hline : r1.line = r2.line) (hctx : r1.context = r2.context) :
    render_markdown r1 = render_markdown r2 := by
  unfold render_markdown render_markdown_line
  rw [hline, hctx]

theorem render_markdown_deterministic_witness :
    render_markdown { index := 0, line := "# hi", context := Context.initial } =
      render_markdown { index := 7, line := "# hi", context := Context.initial } :=
  render_markdown_deterministic _ _ rfl rfl

/-- C3: the line renderer is total — every request yields exactly one
result, and malformed syntax (an unmatched emphasis delimiter) degrades
to literal text in a paragraph rather than erroring. -/
theorem render_markdown_total :
    (∀ req : RenderRequest, ∃! res : LineRenderResult, render_markdown req = res) ∧
    (render_markdown { index := 0, line := "*hello", context := Context.initial }).html =
      "<p>*hello</p>" ∧
    (render_markdown { index := 0, line := "*hello", context := Context.initial }).tag =
      LineTag.paragraph :=
  ⟨fun req => ⟨render_markdown req, rfl, fun _ hy => hy.symm⟩, rfl, rfl⟩

/-- C4: rendering "```rust", "let x = 1;", "```" in sequence, threading
each outgoing context into the next request, classifies the middle line
as verbatim code content and the final line as a fence boundary, and
returns to the initial all-closed context. -/
theorem fence_sequence_context_roundtrip :
    (render_markdown ⟨1, "let x = 1;",
      (render_markdown ⟨0, "```rust", Context.initial⟩).context⟩).tag =
      LineTag.codeContent ∧
    (render_markdown ⟨2, "```",
      (render_markdown ⟨1, "let x = 1;",
        (render_markdown ⟨0, "```rust", Context.initial⟩).context⟩).context⟩).tag =
      LineTag.fenceBoundary ∧
    (render_markdown ⟨2, "```",
      (render_markdown ⟨1, "let x = 1;",
        (render_markdown ⟨0, "```rust", Context.initial⟩).context⟩).context⟩).context =
      Context.initial :=
  ⟨rfl, rfl, rfl⟩

/-- C5: `render_markdown_batch` takes the parallel path exactly when the
batch holds more than 50 requests and the sequential path exactly when
it holds at most 50; on the sequential path it maps over the requests on
the caller's side, on the parallel path it fans out by index. -/
theorem batch_threshold (requests : List RenderRequest) :
    (batchExecPath requests = ExecPath.parallel ↔ 50 < requests.length) ∧
    (batchExecPath requests = ExecPath.sequential ↔ requests.length ≤ 50) ∧
    (requests.length ≤ 50 →
      render_markdown_batch requests = requests.map render_markdown_line) ∧
    (50 < requests.length →
      render_markdown_batch requests = parCollect render_markdown_line requests) := by
  by_cases h : requests.length > 50 <;>
    simp [batchExecPath, render_markdown_batch, h]
  omega

theorem batch_threshold_witness :
    render_markdown_batch
        (List.replicate 51 { index := 0, line := "a", context := Context.initial }) =
      parCollect render_markdown_line
        (List.replicate 51 { index := 0, line := "a", context := Context.initial }) ∧
    render_markdown_batch
        (List.replicate 50 { index := 0, line := "a", context := Context.initial }) =
      (List.replicate 50
        { index := 0, line := "a", context := Context.initial }).map render_markdown_line :=
  ⟨(batch_threshold _).2.2.2 (by simp),
   (batch_threshold _).2.2.1 (by simp)⟩

/-! ### Directory listing theorems (C6) -/

theorem charListCmp_gt_iff (a b : List Char) :
    charListCmp a b = .gt ↔ charListCmp b a = .lt := by
  induction a generalizing b with
  | nil => cases b <;> simp [charListCmp]
  | cons x xs ih =>
    cases b with
    | nil => simp [charListCmp]
    | cons y ys =>
      simp only [charListCmp]
      rcases lt_trichotomy x y with h | h | h
      · simp [h, not_lt_of_gt h]
      · simp [h, lt_irrefl, ih]
      · simp [h, not_lt_of_gt h]

theorem charListCmp_le_trans :
    ∀ (a b c : List Char), charListCmp a b ≠ .gt → charListCmp b c ≠ .gt →
      charListCmp a c ≠ .gt
  | [], _, c, _, _ => by cases c <;> simp [charListCmp]
  | x :: xs, [], _, h1, _ => by simp [charListCmp] at h1
  | x :: xs, y :: ys, [], _, h2 => by simp [charListCmp] at h2
  | x :: xs, y :: ys, z :: zs, h1, h2 => by
    simp only [charListCmp] at h1 h2 ⊢
    rcases lt_trichotomy x y with hxy | hxy | hxy
    · rcases lt_trichotomy y z with hyz | hyz | hyz
      · simp [lt_trans hxy hyz]
      · subst hyz; simp [hxy]
      · exact absurd h2 (by simp [not_lt_of_gt hyz, hyz])
    · subst hxy
      rcases lt_trichotomy x z with hxz | hxz | hxz
      · simp [hxz]
      · subst hxz
        simp only [lt_irrefl, if_false] at h1 h2 ⊢
        exact charListCmp_le_trans xs ys zs h1 h2
      · exact absurd h2 (by simp [not_lt_of_gt hxz, hxz])
    · exact absurd h1 (by simp [not_lt_of_gt hxy, hxy])


theorem bne_gt_eq_true_iff (o : Ordering) : (o != Ordering.gt) = true ↔ o ≠ Ordering.gt := by
  cases o <;> decide

theorem charListCmp_le_total (a b : List Char) :
    charListCmp a b ≠ .gt ∨ charListCmp b a ≠ .gt := by
  by_cases h : charListCmp a b = .gt
  · right
    rw [charListCmp_gt_iff] at h
    rw [h]
    simp
  · left
    exact h

theorem entryLe_trans (a b c : FileEntry)
    (h1 : entryLe a b = true) (h2 : entryLe b c = true) : entryLe a c = true := by
  simp only [entryLe, bne_gt_eq_true_iff, entryCmp] at h1 h2 ⊢
  cases ha : a.is_dir <;> cases hb : b.is_dir <;> cases hc : c.is_dir <;>
    simp only [ha, hb, hc] at h1 h2 ⊢ <;>
    first
      | exact charListCmp_le_trans _ _ _ h1 h2
      | exact absurd rfl h1
      | exact absurd rfl h2
      | simp

theorem entryLe_total (a b : FileEntry) :
    entryLe a b = true ∨ entryLe b a = true := by
  simp only [entryLe, bne_gt_eq_true_iff, entryCmp]
  cases ha : a.is_dir <;> cases hb : b.is_dir <;> simp only [ha, hb]
  · exact charListCmp_le_total _ _
  · right
    simp
  · left
    simp
  · exact charListCmp_le_total _ _

theorem processEntries_ok (fs : FileSystem) (raws : List RawDirEntry) :
    processEntries fs (raws.map Except.ok) =
      .ok ((raws.filter (fun r => !isHiddenName r.name)).map (rawToEntry fs)) := by
  induction raws with
  | nil => rfl
  | cons r rest ih =>
    by_cases h : isHiddenName r.name
    · simp [processEntries, List.filter_cons, h, ih]
    · simp [processEntries, List.filter_cons, h, ih]

/-- C6: for every readable directory, `read_directory` returns exactly
the non-hidden immediate entries, sorted with directories before files
and case-insensitively within each group, children unpopulated; and on
a directory holding `.git`, `README.md` and `src` it returns exactly
`[src, README.md]`. -/
theorem read_directory_spec :
    (∀ (fs : FileSystem) (path : String) (raws : List RawDirEntry),
      fs.pathExists path = true → fs.pathIsDir path = true →
      fs.listDir path = .ok (raws.map Except.ok) →
      ∃ out, read_directory fs path = .ok out ∧
        out.Perm ((raws.filter (fun r => !isHiddenName r.name)).map (rawToEntry fs)) ∧
        out.Pairwise (fun a b => entryLe a b = true) ∧
        (∀ e ∈ out, e.children = if e.is_dir then some [] else none)) ∧
    read_directory exampleFS "/repo" =
      .ok [FileEntry.mk "src" "/repo/src" true (some []),
           FileEntry.mk "README.md" "/repo/README.md" false none] := by
  constructor
  · intro fs path raws hex hdir hlist
    refine ⟨List.insertionSort (fun a b => entryLe a b = true)
      ((raws.filter (fun r => !isHiddenName r.name)).map (rawToEntry fs)),
      ?_, ?_, ?_, ?_⟩
    · simp [read_directory, read_dir_recursive, hex, hdir, hlist, processEntries_ok]
    · exact List.perm_insertionSort _ _
    · haveI ht : IsTotal FileEntry (fun a b => entryLe a b = true) := ⟨entryLe_total⟩
      haveI htr : IsTrans FileEntry (fun a b => entryLe a b = true) :=
        ⟨fun a b c => entryLe_trans a b c⟩
      exact List.sorted_insertionSort _ _
    · intro e he
      have hmem := (List.perm_insertionSort (fun a b => entryLe a b = true) _).mem_iff.mp he
      obtain ⟨r, _, rfl⟩ := List.mem_map.mp hmem
      simp [rawToEntry, FileEntry.children, FileEntry.is_dir]
  · rfl

/-! ### Settings store theorems (C7, C9, C10) -/

theorem deserialize_toJson (c : GlobalConfig) :
    deserializeGlobalConfig (globalConfigToJson c) = .ok c := by
  cases c with
  | mk lof => cases lof <;> rfl

/-- C7: with no config file present, `load_global_config` succeeds with
the default configuration (no last opened folder); the config path lives
under the app data directory, which is created on demand, and a
successful save stores the configuration as JSON at that path. -/
theorem load_global_config_default (fs : CfgFS) (d : String)
    (hd : fs.appDataDirResult = .ok d)
    (hcreate : fs.dirExists = false → fs.createDirResult = .ok ())
    (hnone : fs.configFile = none) :
    (load_global_config fs).1 = .ok GlobalConfig.default ∧
    GlobalConfig.default.last_opened_folder = none ∧
    (get_global_config_path fs).1 = .ok (d ++ "/global_config.json") ∧
    (get_global_config_path fs).2.dirExists = true ∧
    (∀ c : GlobalConfig, (save_global_config fs c).1 = .ok () →
      (save_global_config fs c).2.configFile =
        some (ConfigFileState.json (globalConfigToJson c))) := by
  have hsave : ∀ c : GlobalConfig, (save_global_config fs c).1 = .ok () →
      (save_global_config fs c).2.configFile =
        some (ConfigFileState.json (globalConfigToJson c)) := by
    intro c hs
    cases hde : fs.dirExists <;>
      cases hcr : fs.createDirResult <;>
        cases hser : fs.serializeResult <;>
          cases hwr : fs.writeResult <;>
            simp [save_global_config, get_global_config_path, get_app_data_dir,
                  hd, hde, hcr, hser, hwr, Except.mapError] at hs ⊢
  cases hde : fs.dirExists
  · refine ⟨?_, rfl, ?_, ?_, hsave⟩ <;>
      simp [load_global_config, get_global_config_path, get_app_data_dir,
            hd, hde, hcreate hde, hnone, Except.mapError]
  · refine ⟨?_, rfl, ?_, ?_, hsave⟩ <;>
      simp [load_global_config, get_global_config_path, get_app_data_dir,
            hd, hde, hnone, Except.mapError]

/-- C9: a successful `save_global_config` followed by
`load_global_config` returns exactly the saved configuration. -/
theorem save_load_roundtrip (fs : CfgFS) (c : GlobalConfig)
    (h : (save_global_config fs c).1 = .ok ()) :
    (load_global_config (save_global_config fs c).2).1 = .ok c := by
  cases had : fs.appDataDirResult with
  | error e =>
    simp [save_global_config, get_global_config_path, get_app_data_dir, had,
          Except.mapError] at h
  | ok d =>
    cases hde : fs.dirExists <;>
      cases hcr : fs.createDirResult <;>
        cases hser : fs.serializeResult <;>
          cases hwr : fs.writeResult <;>
            simp [save_global_config, load_global_config, get_global_config_path,
                  get_app_data_dir, had, hde, hcr, hser, hwr, Except.mapError,
                  deserialize_toJson] at h ⊢

/-- C10: a config file whose JSON object lacks the `last_opened_folder`
field parses successfully via the serde field default, yielding no last
opened folder. -/
theorem load_missing_field_defaults (fs : CfgFS) (d : String)
    (fields : List (String × Json))
    (hd : fs.appDataDirResult = .ok d) (hde : fs.dirExists = true)
    (hcf : fs.configFile = some (.json (.obj fields)))
    (hlook : lookupField fields "last_opened_folder" = none) :
    (load_global_config fs).1 = .ok { last_opened_folder := none } := by
  simp [load_global_config, get_global_config_path, get_app_data_dir, hd, hde,
        hcf, deserializeGlobalConfig, hlook, Except.mapError]

/-! ### Error-surfacing theorems (C8) -/

theorem read_directory_spec_witness :
    ∃ out, read_directory exampleFS "/repo" = .ok out ∧
      out.Perm ((([⟨".git", "/repo/.git"⟩, ⟨"README.md", "/repo/README.md"⟩,
          ⟨"src", "/repo/src"⟩] : List RawDirEntry).filter
            (fun r => !isHiddenName r.name)).map (rawToEntry exampleFS)) ∧
      out.Pairwise (fun a b => entryLe a b = true) ∧
      (∀ e ∈ out, e.children = if e.is_dir then some [] else none) :=
  read_directory_spec.1 exampleFS "/repo"
    [⟨".git", "/repo/.git"⟩, ⟨"README.md", "/repo/README.md"⟩, ⟨"src", "/repo/src"⟩]
    rfl rfl rfl

theorem load_global_config_default_witness :
    (load_global_config cfgA).1 = .ok GlobalConfig.default ∧
    GlobalConfig.default.last_opened_folder = none ∧
    (get_global_config_path cfgA).1 = .ok ("/data" ++ "/global_config.json") ∧
    (get_global_config_path cfgA).2.dirExists = true ∧
    (∀ c : GlobalConfig, (save_global_config cfgA c).1 = .ok () →
      (save_global_config cfgA c).2.configFile =
        some (ConfigFileState.json (globalConfigToJson c))) :=
  load_global_config_default cfgA "/data" rfl (fun _ => rfl) rfl

theorem save_load_roundtrip_witness :
    (load_global_config
        (save_global_config cfgA { last_opened_folder := some "/home/user/notes" }).2).1 =
      .ok { last_opened_folder := some "/home/user/notes" } :=
  save_load_roundtrip cfgA { last_opened_folder := some "/home/user/notes" } rfl

theorem load_missing_field_defaults_witness :
    (load_global_config cfgB).1 = .ok { last_opened_folder := none } :=
  load_missing_field_defaults cfgB "/data" [("theme", Json.str "dark")] rfl rfl rfl rfl

/-- C8: every I/O failure in the collaborators is surfaced to the caller
as an `Except.error` carrying a descriptive message — a missing or
non-directory path in `read_directory`, a failing listing, an unreadable
file in `read_file_from_path`, and each failure mode of the settings
store (app-data resolution, directory creation, read, parse, serialize,
write).  All embedded functions are total (they can only return `ok` or
`error`, never crash), and each underlying primitive is consulted once,
with no retry. -/
theorem io_errors_surfaced :
    (∀ (fs : FileSystem) (path : String), fs.pathExists path = false →
        read_directory fs path = .error "Directory does not exist") ∧
    (∀ (fs : FileSystem) (path : String), fs.pathExists path = true →
        fs.pathIsDir path = false →
        read_directory fs path = .error "Path is not a directory") ∧
    (∀ (fs : FileSystem) (path e : String), fs.pathExists path = true →
        fs.pathIsDir path = true → fs.listDir path = .error e →
        read_directory fs path = .error ("Failed to read directory: " ++ e)) ∧
    (∀ (fs : FileSystem) (path e : String), fs.readToString path = .error e →
        read_file_from_path fs path = .error ("Failed to read file: " ++ e)) ∧
    (∀ (fs : CfgFS) (e : String), fs.appDataDirResult = .error e →
        (load_global_config fs).1 =
          .error ("Failed to get app data directory: " ++ e)) ∧
    (∀ (fs : CfgFS) (d e : String), fs.appDataDirResult = .ok d →
        fs.dirExists = false → fs.createDirResult = .error e →
        (load_global_config fs).1 =
          .error ("Failed to create app data directory: " ++ e)) ∧
    (∀ (fs : CfgFS) (d e : String), fs.appDataDirResult = .ok d →
        fs.dirExists = true → fs.configFile = some (.readErr e) →
        (load_global_config fs).1 =
          .error ("Failed to read global config file: " ++ e)) ∧
    (∀ (fs : CfgFS) (d e : String), fs.appDataDirResult = .ok d →
        fs.dirExists = true → fs.configFile = some (.badJson e) →
        (load_global_config fs).1 =
          .error ("Failed to parse global config file: " ++ e)) ∧
    (∀ (fs : CfgFS) (d e : String) (c : GlobalConfig),
        fs.appDataDirResult = .ok d →
        fs.dirExists = true → fs.serializeResult = some e →
        (save_global_config fs c).1 =
          .error ("Failed to serialize global config: " ++ e)) ∧
    (∀ (fs : CfgFS) (d e : String) (c : GlobalConfig),
        fs.appDataDirResult = .ok d →
        fs.dirExists = true → fs.serializeResult = none →
        fs.writeResult = .error e →
        (save_global_config fs c).1 =
          .error ("Failed to write global config file: " ++ e)) := by
  refine ⟨?_, ?_, ?_, ?_, ?_, ?_, ?_, ?_, ?_, ?_⟩
  · intro fs path h
    simp [read_directory, h]
  · intro fs path h1 h2
    simp [read_directory, h1, h2]
  · intro fs path e h1 h2 h3
    simp [read_directory, read_dir_recursive, h1, h2, h3]
  · intro fs path e h
    simp [read_file_from_path, h, Except.mapError]
  · intro fs e h
    simp [load_global_config, get_global_config_path, get_app_data_dir, h,
          Except.mapError]
  · intro fs d e h1 h2 h3
    simp [load_global_config, get_global_config_path, get_app_data_dir, h1, h2,
          h3, Except.mapError]
  · intro fs d e h1 h2 h3
    simp [load_global_config, get_global_config_path, get_app_data_dir, h1, h2,
          h3, Except.mapError]
  · intro fs d e h1 h2 h3
    simp [load_global_config, get_global_config_path, get_app_data_dir, h1, h2,
          h3, Except.mapError]
  · intro fs d e c h1 h2 h3
    simp [save_global_config, get_global_config_path, get_app_data_dir, h1, h2,
          h3, Except.mapError]
  · intro fs d e c h1 h2 h3 h4
    simp [save_global_config, get_global_config_path, get_app_data_dir, h1, h2,
          h3, h4, Except.mapError]

theorem io_errors_surfaced_witness :
    read_directory badFS "/missing" = .error "Directory does not exist" ∧
    read_directory badFS "/dir" = .error "Path is not a directory" ∧
    read_file_from_path badFS "/dir/f.md" =
      .error ("Failed to read file: " ++ "permission denied") ∧
    (load_global_config cfgBad).1 =
      .error ("Failed to read global config file: " ++ "permission denied") ∧
    (save_global_config cfgBad { last_opened_folder := none }).1 =
      .error ("Failed to serialize global config: " ++ "key must be a string") :=
  ⟨io_errors_surfaced.1 badFS "/missing" rfl,
   io_errors_surfaced.2.1 badFS "/dir" rfl rfl,
   io_errors_surfaced.2.2.2.1 badFS "/dir/f.md" "permission denied" rfl,
   io_errors_surfaced.2.2.2.2.2.2.1 cfgBad "/data" "permission denied" rfl rfl rfl,
   io_errors_surfaced.2.2.2.2.2.2.2.2.1 cfgBad "/data" "key must be a string"
     { last_opened_folder := none } rfl rfl rfl⟩

end Loom
